import Mathlib

/-!
Verification of the h265nal SPS decoder (src/h265_sps_parser.cc) against its
natural-language specification.

The development shallowly embeds the decoder:

- Bytes are `Nat` values, bit streams are `List Bool` (most significant bit
  first, matching the big-endian bit reader of the source).
- The bit reader (`rtc::BitBuffer`, whose code lives outside this repository)
  is modelled from the specification, section 4.1: `ReadBits`,
  `ReadExponentialGolomb`, `more_rbsp_data`, `rbsp_trailing_bits`.
- The RBSP unescape step (`UnescapeRbsp`, h265_common.cc, outside this
  repository) is modelled from the specification, section 4.2.
- `ParseSps` itself and `getPicSizeInCtbsY` are translated statement by
  statement from src/h265_sps_parser.cc.
- The three external sub-decoders (profile/tier/level, VUI parameters,
  short-term reference picture sets) are parameters of `ParseSps`, exactly as
  the source treats them: their result is stored into the entity without a
  null check (lines 64, 274 and 323 of the source).
-/

/-! ## Bit-level utilities -/

/-- Big-endian interpretation of a bit list as an unsigned integer, the value
a fixed-width read of the whole list produces. -/
def bitsToNat : List Bool → Nat
  | [] => 0
  | b :: t => cond b 1 0 * 2 ^ t.length + bitsToNat t

/-- The `w` low-order bits of `v`, most significant first; the inverse of
`bitsToNat` for values below `2 ^ w`. -/
def natToBits : Nat → Nat → List Bool
  | 0, _ => []
  | w + 1, v => (v / 2 ^ w % 2 == 1) :: natToBits w (v % 2 ^ w)

/-- Count the leading zero bits before the first one bit and return the rest;
fails when the stream is exhausted before a one bit is found. -/
def countLeadingZeros : List Bool → Option (Nat × List Bool)
  | [] => none
  | true :: rest => some (0, rest)
  | false :: rest =>
    match countLeadingZeros rest with
    | none => none
    | some (k, r) => some (k + 1, r)

/-- Modelled from the spec (section 4.1, `read_exp_golomb`; the code of
`rtc::BitBuffer` is not under src/): count `k` leading zero bits until a one
bit, read `k` more bits as an unsigned suffix, and return `2 ^ k - 1 + suffix`;
fail with end-of-data when the stream ends before the one bit or before the
suffix is complete. -/
def expGolombDecode (bits : List Bool) : Option (Nat × List Bool) :=
  match countLeadingZeros bits with
  | none => none
  | some (k, rest) =>
    if k ≤ rest.length then
      some (2 ^ k - 1 + bitsToNat (rest.take k), rest.drop k)
    else none

/-- The standard unsigned Exponential-Golomb encoding of `v`: the binary
representation of `v + 1` preceded by one leading zero bit per digit after the
first. -/
def encodeExpGolomb (v : Nat) : List Bool :=
  let k := Nat.log 2 (v + 1)
  List.replicate k false ++ [true] ++ natToBits k (v + 1 - 2 ^ k)

/-! ## RBSP unescape -/

/-- Worker for `UnescapeRbsp`; `zeros` counts the consecutive zero bytes seen
immediately before the current position. -/
def unescapeGo : Nat → List Nat → List Nat
  | _, [] => []
  | zeros, b :: rest =>
    if 2 ≤ zeros ∧ b = 3 then unescapeGo 0 rest
    else if b = 0 then b :: unescapeGo (zeros + 1) rest
    else b :: unescapeGo 0 rest

/-- Modelled from the spec (section 4.2; the code of `UnescapeRbsp` lives in
h265_common.cc, not under src/): scan left to right tracking a run of zero
bytes; a byte of value 3 that immediately follows at least two zero bytes is
dropped and the run counter resets; every other byte is copied verbatim. The
run-length condition is taken as at-least-two rather than exactly-two so that
the spec example `00 00 00 03 00 -> 00 00 00 00` (section 8) holds. -/
def UnescapeRbsp (data : List Nat) : List Nat :=
  unescapeGo 0 data

/-- Decides whether the byte list contains an occurrence of the emulation
pattern `00 00 03`; input without one is already unescaped. -/
def hasEmulationPattern : List Nat → Bool
  | [] => false
  | _ :: [] => false
  | _ :: _ :: [] => false
  | a :: b :: c :: rest =>
    (a == 0 && b == 0 && c == 3) || hasEmulationPattern (b :: c :: rest)

/-! ## Lemmas about the bit-level utilities -/

theorem natToBits_length (w v : Nat) : (natToBits w v).length = w := by
  induction w generalizing v with
  | zero => rfl
  | succ k ih => simp [natToBits, ih]

theorem bitsToNat_natToBits (w v : Nat) (h : v < 2 ^ w) :
    bitsToNat (natToBits w v) = v := by
  induction w generalizing v with
  | zero =>
    simp only [Nat.pow_zero, Nat.lt_one_iff] at h
    simp [natToBits, bitsToNat, h]
  | succ k ih =>
    have hmod : v % 2 ^ k < 2 ^ k := Nat.mod_lt _ (Nat.pos_pow_of_pos k (by norm_num))
    have hdiv2 : v / 2 ^ k < 2 := by
      rw [Nat.div_lt_iff_lt_mul (Nat.pos_pow_of_pos k (by norm_num))]
      rw [Nat.pow_succ] at h
      omega
    have hdm := Nat.div_add_mod v (2 ^ k)
    simp only [natToBits, bitsToNat, natToBits_length]
    rw [ih (v % 2 ^ k) hmod]
    have hcond : (cond (v / 2 ^ k % 2 == 1) 1 0) = v / 2 ^ k := by
      interval_cases h2 : v / 2 ^ k <;> simp
    rw [hcond]
    exact Nat.div_add_mod' v (2 ^ k)

theorem countLeadingZeros_replicate (k : Nat) (t : List Bool) :
    countLeadingZeros (List.replicate k false ++ true :: t) = some (k, t) := by
  induction k with
  | zero => rfl
  | succ n ih => simp [List.replicate_succ, countLeadingZeros, ih]

/-- Decoding an encoded value recovers it exactly and consumes exactly the
encoding. -/
theorem expGolombDecode_encode (v : Nat) (rest : List Bool) :
    expGolombDecode (encodeExpGolomb v ++ rest) = some (v, rest) := by
  have h1 : 2 ^ Nat.log 2 (v + 1) ≤ v + 1 := Nat.pow_log_le_self 2 (Nat.succ_ne_zero v)
  have h2 : v + 1 < 2 ^ (Nat.log 2 (v + 1) + 1) := Nat.lt_pow_succ_log_self (by norm_num) (v + 1)
  rw [Nat.pow_succ] at h2
  have hs : v + 1 - 2 ^ Nat.log 2 (v + 1) < 2 ^ Nat.log 2 (v + 1) := by omega
  have hshape : encodeExpGolomb v ++ rest =
      List.replicate (Nat.log 2 (v + 1)) false ++
        true :: (natToBits (Nat.log 2 (v + 1)) (v + 1 - 2 ^ Nat.log 2 (v + 1)) ++ rest) := by
    simp [encodeExpGolomb, List.append_assoc]
  rw [hshape]
  simp only [expGolombDecode, countLeadingZeros_replicate]
  rw [List.take_left' (natToBits_length _ _), List.drop_left' (natToBits_length _ _),
    bitsToNat_natToBits _ _ hs]
  have hk : Nat.log 2 (v + 1) ≤
      (natToBits (Nat.log 2 (v + 1)) (v + 1 - 2 ^ Nat.log 2 (v + 1)) ++ rest).length := by
    simp [natToBits_length]
  rw [if_pos hk]
  have hv : 2 ^ Nat.log 2 (v + 1) - 1 + (v + 1 - 2 ^ Nat.log 2 (v + 1)) = v := by omega
  rw [hv]

/-! ## Lemmas about the RBSP unescape -/

theorem hasEmulationPattern_tail (x : Nat) (l : List Nat)
    (h : hasEmulationPattern (x :: l) = false) : hasEmulationPattern l = false := by
  match l with
  | [] => rfl
  | [y] => rfl
  | y :: z :: t =>
    simp only [hasEmulationPattern, Bool.or_eq_false_iff] at h
    match t with
    | [] => rfl
    | w :: u => exact h.2

theorem hasEmulationPattern_append (xs l : List Nat)
    (h : hasEmulationPattern (xs ++ l) = false) : hasEmulationPattern l = false := by
  induction xs with
  | nil => exact h
  | cons x t ih => exact ih (hasEmulationPattern_tail x (t ++ l) h)

theorem unescapeGo_eq_self (l : List Nat) : ∀ z : Nat,
    hasEmulationPattern (List.replicate (min z 2) 0 ++ l) = false → unescapeGo z l = l := by
  induction l with
  | nil => intro z _; cases z <;> rfl
  | cons b rest ih =>
    intro z hfree
    by_cases h1 : 2 ≤ z ∧ b = 3
    · exfalso
      have hz : min z 2 = 2 := by omega
      rw [hz, h1.2] at hfree
      simp [List.replicate, hasEmulationPattern] at hfree
    · by_cases h2 : b = 0
      · subst h2
        rw [unescapeGo, if_neg h1, if_pos rfl]
        have htail : hasEmulationPattern (List.replicate (min (z + 1) 2) 0 ++ rest) = false := by
          match z with
          | 0 => simpa [List.replicate] using hfree
          | 1 => simpa [List.replicate] using hfree
          | w + 2 =>
            have hmin : min (w + 2) 2 = 2 := by omega
            have hmin1 : min (w + 3) 2 = 2 := by omega
            rw [hmin] at hfree
            rw [hmin1]
            simp only [List.replicate, List.cons_append, List.nil_append] at hfree ⊢
            exact hasEmulationPattern_tail 0 _ hfree
        rw [ih (z + 1) htail]
      · rw [unescapeGo, if_neg h1, if_neg h2]
        have htail : hasEmulationPattern rest = false := by
          have hsplit : List.replicate (min z 2) 0 ++ b :: rest =
              (List.replicate (min z 2) 0 ++ [b]) ++ rest := by simp
          rw [hsplit] at hfree
          exact hasEmulationPattern_append _ _ hfree
        rw [ih 0 (by simpa using htail)]

/-! ## The bit reader and the parser shape of ParseSps -/

/-- The modelled `rtc::BitBuffer`: the remaining bit stream, plus a ghost
`trace` recording the width of every fixed-width `ReadBits` request the SPS
decoder has issued (instrumentation only; it never influences parsing). -/
structure BitReader where
  bits : List Bool
  trace : List Nat
deriving DecidableEq

/-- Shape of every step of `ParseSps`: given the reader, produce either a
result (the C++ success path) or none (the C++ early `return nullptr`),
together with the reader afterwards. -/
def SpsParser (α : Type) : Type :=
  BitReader → Option α × BitReader

/-- Sequencing of parse steps: a failed step short-circuits everything after
it, exactly like the early returns of the source. -/
def pbind {α β : Type} (x : SpsParser α) (f : α → SpsParser β) : SpsParser β := fun r =>
  match x r with
  | (some a, r1) => f a r1
  | (none, r1) => (none, r1)

instance : Monad SpsParser where
  pure a := fun r => (some a, r)
  bind := pbind

/-- The C++ `return nullptr`. -/
def pfail {α : Type} : SpsParser α := fun r => (none, r)

/-- Modelled from the spec (section 4.1, `read_bits`; the code of
`rtc::BitBuffer` is not under src/): consume the next `n` bits (`0 ≤ n ≤ 32`)
as a big-endian unsigned integer; fail when the request is outside the
contract or fewer than `n` bits remain. The requested width is always recorded
in the ghost trace. -/
def ReadBits (n : Nat) : SpsParser Nat := fun r =>
  if n ≤ 32 ∧ n ≤ r.bits.length then
    (some (bitsToNat (r.bits.take n)), ⟨r.bits.drop n, r.trace ++ [n]⟩)
  else (none, ⟨r.bits, r.trace ++ [n]⟩)

/-- The Exponential-Golomb read of the bit reader, lifted to a parse step; the
bit-level definition is `expGolombDecode`. -/
def ReadExponentialGolomb : SpsParser Nat := fun r =>
  match expGolombDecode r.bits with
  | some (v, rest) => (some v, ⟨rest, r.trace⟩)
  | none => (none, r)

/-- Invocation of an external sub-decoder (profile/tier/level, VUI, or one
short-term reference picture set). The sub-decoder advances the shared reader
and yields an optional sub-structure; as in the source, the result is stored
without a null check, so the call itself never fails the SPS parse. -/
def callSub {α : Type} (dec : BitReader → Option α × BitReader) : SpsParser (Option α) :=
  fun r => (some (dec r).1, (dec r).2)

/-- Whether the remaining bits are exactly RBSP stop-bit padding: nothing, or
a single one bit followed by zero bits. -/
def isRbspTrailing : List Bool → Bool
  | [] => true
  | true :: rest => rest.all (fun b => !b)
  | false :: _ => false

/-- Modelled from the spec (section 4.1, `has_more_data`; the code of
`more_rbsp_data` lives in h265_common.cc, not under src/): true when at least
one non-trailing bit remains. -/
def moreRbspData (bits : List Bool) : Bool :=
  !isRbspTrailing bits

/-- Modelled from the spec (section 4.3; `rbsp_trailing_bits` lives in
h265_common.cc, not under src/): consume the stop bit and padding when they
are well formed. The source ignores its result (line 403), so it is modelled
as a plain reader transformation. -/
def rbspTrailingBits (r : BitReader) : BitReader :=
  if isRbspTrailing r.bits then ⟨[], r.trace⟩ else r

/-- The final `rbsp_trailing_bits(bit_buffer)` statement of `ParseSps`: the
outcome is ignored, so the step always succeeds. -/
def rbspTrailingBitsP : SpsParser Unit := fun r =>
  (some (), rbspTrailingBits r)

/-! ## The SPS entity -/

/-- Modelled from the spec (section 6): the sub-structure produced by the
external profile/tier/level decoder. Its contents are outside the core and
never inspected by the SPS decoder. -/
structure ProfileTierLevel where
deriving DecidableEq

/-- Modelled from the spec (section 6): the sub-structure produced by the
external VUI parameters decoder. -/
structure VuiParameters where
deriving DecidableEq

/-- Modelled from the spec (section 6): the sub-structure produced by the
external short-term reference-picture-set decoder. -/
structure StRefPicSet where
deriving DecidableEq

/-- Modelled from the spec (section 3; the header declaring `SpsState` is not
under src/): the decoded SPS entity. Conditional fields are optional values so
that absent is distinguishable from present-and-zero; fields of the wire
format are unsigned integers, defaulted as by C++ value initialization. -/
structure SpsState where
  sps_video_parameter_set_id : Nat := 0
  sps_max_sub_layers_minus1 : Nat := 0
  sps_temporal_id_nesting_flag : Nat := 0
  profile_tier_level : Option ProfileTierLevel := none
  sps_seq_parameter_set_id : Nat := 0
  chroma_format_idc : Nat := 0
  separate_colour_plane_flag : Option Nat := none
  pic_width_in_luma_samples : Nat := 0
  pic_height_in_luma_samples : Nat := 0
  conformance_window_flag : Nat := 0
  conf_win_left_offset : Option Nat := none
  conf_win_right_offset : Option Nat := none
  conf_win_top_offset : Option Nat := none
  conf_win_bottom_offset : Option Nat := none
  bit_depth_luma_minus8 : Nat := 0
  bit_depth_chroma_minus8 : Nat := 0
  log2_max_pic_order_cnt_lsb_minus4 : Nat := 0
  sps_sub_layer_ordering_info_present_flag : Nat := 0
  sps_max_dec_pic_buffering_minus1 : List Nat := []
  sps_max_num_reorder_pics : List Nat := []
  sps_max_latency_increase_plus1 : List Nat := []
  log2_min_luma_coding_block_size_minus3 : Nat := 0
  log2_diff_max_min_luma_coding_block_size : Nat := 0
  log2_min_luma_transform_block_size_minus2 : Nat := 0
  log2_diff_max_min_luma_transform_block_size : Nat := 0
  max_transform_hierarchy_depth_inter : Nat := 0
  max_transform_hierarchy_depth_intra : Nat := 0
  scaling_list_enabled_flag : Nat := 0
  sps_scaling_list_data_present_flag : Option Nat := none
  amp_enabled_flag : Nat := 0
  sample_adaptive_offset_enabled_flag : Nat := 0
  pcm_enabled_flag : Nat := 0
  pcm_sample_bit_depth_luma_minus1 : Option Nat := none
  pcm_sample_bit_depth_chroma_minus1 : Option Nat := none
  log2_min_pcm_luma_coding_block_size_minus3 : Option Nat := none
  log2_diff_max_min_pcm_luma_coding_block_size : Option Nat := none
  pcm_loop_filter_disabled_flag : Option Nat := none
  num_short_term_ref_pic_sets : Nat := 0
  st_ref_pic_set : List (Option StRefPicSet) := []
  long_term_ref_pics_present_flag : Nat := 0
  num_long_term_ref_pics_sps : Option Nat := none
  lt_ref_pic_poc_lsb_sps : List Nat := []
  used_by_curr_pic_lt_sps_flag : List Nat := []
  sps_temporal_mvp_enabled_flag : Nat := 0
  strong_intra_smoothing_enabled_flag : Nat := 0
  vui_parameters_present_flag : Nat := 0
  vui_parameters : Option VuiParameters := none
  sps_extension_present_flag : Nat := 0
  sps_range_extension_flag : Option Nat := none
  sps_multilayer_extension_flag : Option Nat := none
  sps_3d_extension_flag : Option Nat := none
  sps_scc_extension_flag : Option Nat := none
  sps_extension_4bits : Option Nat := none
  sps_extension_data_flag : Nat := 0
deriving DecidableEq

/-- Modelled from the spec (sections 4.3 and 7; the constant lives in
h265_common.h, not under src/): the fixed implementation maximum for
`num_short_term_ref_pic_sets`; the value 64 is the bound of the H.265
standard. The claims about it are relative to the constant. -/
def NUM_SHORT_TERM_REF_PIC_SETS_MAX : Nat := 64

/-! ## The SPS decode, statement by statement from src/h265_sps_parser.cc.
Each syntax element is bound to a plain value in decode order and the entity
is assembled once at the end; a failed read short-circuits the rest, exactly
like the early returns of the source. -/

/-- Lines 93-115: `conformance_window_flag` and, only when it is set, the four
conformance window offsets; result is the flag and the four optional
offsets. -/
def parseConformanceWindow :
    SpsParser (Nat × Option Nat × Option Nat × Option Nat × Option Nat) := do
  let flag ← ReadBits 1
  if flag ≠ 0 then do
    let a ← ReadExponentialGolomb
    let b ← ReadExponentialGolomb
    let c ← ReadExponentialGolomb
    let d ← ReadExponentialGolomb
    pure (flag, some a, some b, some c, some d)
  else pure (flag, none, none, none, none)

/-- Lines 136-155: the body of the sub-layer ordering loop, iterated `n`
times; each iteration decodes one triple, appended in iteration order to the
three arrays. -/
def parseSubLayerOrderingLoop : Nat → SpsParser (List Nat × List Nat × List Nat)
  | 0 => pure ([], [], [])
  | n + 1 => do
    let a ← ReadExponentialGolomb
    let b ← ReadExponentialGolomb
    let c ← ReadExponentialGolomb
    let (as, bs, cs) ← parseSubLayerOrderingLoop n
    pure (a :: as, b :: bs, c :: cs)

/-- Lines 136-139: the loop runs from `flag ? 0 : maxm1` to `maxm1` inclusive,
hence `maxm1 + 1 - start` iterations. -/
def parseSubLayerOrdering (flag maxm1 : Nat) : SpsParser (List Nat × List Nat × List Nat) :=
  parseSubLayerOrderingLoop (maxm1 + 1 - (if flag ≠ 0 then 0 else maxm1))

/-- Lines 193-211: `scaling_list_enabled_flag`; when set,
`sps_scaling_list_data_present_flag`; when that is set too, scaling list data
is unimplemented and the parse fails. -/
def parseScalingList : SpsParser (Nat × Option Nat) := do
  let flag ← ReadBits 1
  if flag ≠ 0 then do
    let present ← ReadBits 1
    if present ≠ 0 then pfail
    else pure (flag, some present)
  else pure (flag, none)

/-- Lines 223-255: `pcm_enabled_flag` and, when set, the five PCM fields. -/
def parsePcm : SpsParser (Nat × Option (Nat × Nat × Nat × Nat × Nat)) := do
  let flag ← ReadBits 1
  if flag ≠ 0 then do
    let a ← ReadBits 4
    let b ← ReadBits 4
    let c ← ReadExponentialGolomb
    let d ← ReadExponentialGolomb
    let e ← ReadBits 1
    pure (flag, some (a, b, c, d, e))
  else pure (flag, none)

/-- Lines 272-276: the short-term reference-picture-set loop; the sub-decoder
receives the shared reader, the index `i` and the total count, and its result
is pushed without a null check. -/
def parseStRefPicSetLoop (stRpsDec : Nat → Nat → BitReader → Option StRefPicSet × BitReader)
    (total : Nat) : Nat → Nat → SpsParser (List (Option StRefPicSet))
  | 0, _ => pure []
  | k + 1, i => do
    let s ← callSub (stRpsDec i total)
    let rest ← parseStRefPicSetLoop stRpsDec total k (i + 1)
    pure (s :: rest)

/-- Lines 290-303: the long-term reference picture loop, iterated `n` times;
each entry reads the POC LSB with the data-dependent width
`log2_max_pic_order_cnt_lsb_minus4 + 4` and one flag bit. -/
def parseLtRefPicsLoop (log2maxpoc : Nat) : Nat → SpsParser (List Nat × List Nat)
  | 0 => pure ([], [])
  | n + 1 => do
    let poc ← ReadBits (log2maxpoc + 4)
    let used ← ReadBits 1
    let (pocs, useds) ← parseLtRefPicsLoop log2maxpoc n
    pure (poc :: pocs, used :: useds)

/-- Lines 278-304: `long_term_ref_pics_present_flag` and, when set, the count
and the long-term reference picture loop. -/
def parseLongTermRefPics (log2maxpoc : Nat) :
    SpsParser (Nat × Option Nat × List Nat × List Nat) := do
  let flag ← ReadBits 1
  if flag ≠ 0 then do
    let n ← ReadExponentialGolomb
    let (pocs, useds) ← parseLtRefPicsLoop log2maxpoc n
    pure (flag, some n, pocs, useds)
  else pure (flag, none, [], [])

/-- Lines 394-401: while more RBSP data remains, read one
`sps_extension_data_flag` bit; structural recursion on the remaining bits,
carrying the last flag value read. -/
def extDataLoopBits (flag : Nat) (tr : List Nat) : List Bool → Option Nat × BitReader
  | [] => (some flag, ⟨[], tr⟩)
  | b :: rest =>
    if moreRbspData (b :: rest) then
      extDataLoopBits (cond b 1 0) (tr ++ [1]) rest
    else (some flag, ⟨b :: rest, tr⟩)

/-- The extension-data loop as a parse step. -/
def extDataLoop (flag : Nat) : SpsParser Nat := fun r =>
  extDataLoopBits flag r.trace r.bits

/-- Lines 359-401: the four unimplemented-extension checks on the (defaulted)
flag values, then the trailing extension-data loop; each set flag is an
unimplemented syntax and fails the parse. Returns the final
`sps_extension_data_flag`. -/
def spsExtensionChecks (re me de se e4 : Nat) : SpsParser Nat :=
  if re ≠ 0 then pfail
  else if me ≠ 0 then pfail
  else if de ≠ 0 then pfail
  else if se ≠ 0 then pfail
  else if e4 ≠ 0 then extDataLoop 0
  else pure 0

/-- Lines 327-405: `sps_extension_present_flag`, the five extension fields
when present, the four unimplemented-extension checks (on value 0 defaults
when the block is absent), the extension-data loop, and the ignored
`rbsp_trailing_bits`. Result: the present flag, the five optional extension
fields and the final `sps_extension_data_flag`. -/
def ParseSpsFromExtension :
    SpsParser (Nat × Option Nat × Option Nat × Option Nat × Option Nat × Option Nat × Nat) := do
  let v ← ReadBits 1
  let (re?, me?, de?, se?, e4?, df) ←
    if v ≠ 0 then do
      let re ← ReadBits 1
      let me ← ReadBits 1
      let de ← ReadBits 1
      let se ← ReadBits 1
      let e4 ← ReadBits 4
      let df ← spsExtensionChecks re me de se e4
      pure (some re, some me, some de, some se, some e4, df)
    else do
      let df ← spsExtensionChecks 0 0 0 0 0
      pure ((none : Option Nat), (none : Option Nat), (none : Option Nat),
        (none : Option Nat), (none : Option Nat), df)
  let _ ← rbspTrailingBitsP
  pure (v, re?, me?, de?, se?, e4?, df)

/-- Lines 257-405: from `num_short_term_ref_pic_sets` to the end of the
parse. The count is checked against the fixed maximum immediately after its
decode; exceeding it fails before any set is decoded and before any further
read. -/
def ParseSpsFromNumStRps (stRpsDec : Nat → Nat → BitReader → Option StRefPicSet × BitReader)
    (vuiDec : BitReader → Option VuiParameters × BitReader) (log2maxpoc : Nat) :
    SpsParser (Nat × List (Option StRefPicSet) × Nat × Option Nat × List Nat × List Nat ×
      Nat × Nat × Nat × Option VuiParameters ×
      (Nat × Option Nat × Option Nat × Option Nat × Option Nat × Option Nat × Nat)) := do
  let n ← ReadExponentialGolomb
  if NUM_SHORT_TERM_REF_PIC_SETS_MAX < n then pfail
  else do
    let sets ← parseStRefPicSetLoop stRpsDec n n 0
    let (ltFlag, ltCnt, pocs, useds) ← parseLongTermRefPics log2maxpoc
    let mvp ← ReadBits 1
    let smooth ← ReadBits 1
    let vflag ← ReadBits 1
    let vui ← if vflag ≠ 0 then callSub vuiDec else pure none
    let ext ← ParseSpsFromExtension
    pure (n, sets, ltFlag, ltCnt, pocs, useds, mvp, smooth, vflag, vui, ext)

/-- Lines 193-255: from `scaling_list_enabled_flag` through the PCM block,
then the rest of the parse. -/
def ParseSpsFromScalingList (stRpsDec : Nat → Nat → BitReader → Option StRefPicSet × BitReader)
    (vuiDec : BitReader → Option VuiParameters × BitReader) (log2maxpoc : Nat) :
    SpsParser ((Nat × Option Nat) × Nat × Nat × (Nat × Option (Nat × Nat × Nat × Nat × Nat)) ×
      (Nat × List (Option StRefPicSet) × Nat × Option Nat × List Nat × List Nat ×
        Nat × Nat × Nat × Option VuiParameters ×
        (Nat × Option Nat × Option Nat × Option Nat × Option Nat × Option Nat × Nat))) := do
  let sl ← parseScalingList
  let amp ← ReadBits 1
  let sao ← ReadBits 1
  let pcm ← parsePcm
  let tail ← ParseSpsFromNumStRps stRpsDec vuiDec log2maxpoc
  pure (sl, amp, sao, pcm, tail)

set_option maxHeartbeats 2000000 in
/-- Lines 38-406: the SPS parse over an already-unescaped bit stream. The
three external sub-decoders are parameters; as in the source, the results of
the profile/tier/level decoder (line 64) and of the VUI decoder (line 323) are
stored into the entity without a null check. -/
def ParseSps (ptlDec : Bool → Nat → BitReader → Option ProfileTierLevel × BitReader)
    (vuiDec : BitReader → Option VuiParameters × BitReader)
    (stRpsDec : Nat → Nat → BitReader → Option StRefPicSet × BitReader) :
    SpsParser SpsState := do
  let vps ← ReadBits 4
  let maxLayers ← ReadBits 3
  let nesting ← ReadBits 1
  let ptl ← callSub (ptlDec true maxLayers)
  let seqId ← ReadExponentialGolomb
  let chroma ← ReadExponentialGolomb
  let sepPlane ←
    if chroma = 3 then do
      let w ← ReadBits 1
      pure (some w)
    else pure none
  let width ← ReadExponentialGolomb
  let height ← ReadExponentialGolomb
  let (confFlag, cwl, cwr, cwt, cwb) ← parseConformanceWindow
  let bdl ← ReadExponentialGolomb
  let bdc ← ReadExponentialGolomb
  let log2poc ← ReadExponentialGolomb
  let slo ← ReadBits 1
  let (dpb, reorder, latency) ← parseSubLayerOrdering slo maxLayers
  let minCb ← ReadExponentialGolomb
  let diffCb ← ReadExponentialGolomb
  let minTb ← ReadExponentialGolomb
  let diffTb ← ReadExponentialGolomb
  let hierInter ← ReadExponentialGolomb
  let hierIntra ← ReadExponentialGolomb
  let (sl, amp, sao, pcm, tail) ← ParseSpsFromScalingList stRpsDec vuiDec log2poc
  let (numSt, sets, ltFlag, ltCnt, pocs, useds, mvp, smooth, vflag, vui, ext) := tail
  let (extFlag, re?, me?, de?, se?, e4?, df) := ext
  pure {
    sps_video_parameter_set_id := vps
    sps_max_sub_layers_minus1 := maxLayers
    sps_temporal_id_nesting_flag := nesting
    profile_tier_level := ptl
    sps_seq_parameter_set_id := seqId
    chroma_format_idc := chroma
    separate_colour_plane_flag := sepPlane
    pic_width_in_luma_samples := width
    pic_height_in_luma_samples := height
    conformance_window_flag := confFlag
    conf_win_left_offset := cwl
    conf_win_right_offset := cwr
    conf_win_top_offset := cwt
    conf_win_bottom_offset := cwb
    bit_depth_luma_minus8 := bdl
    bit_depth_chroma_minus8 := bdc
    log2_max_pic_order_cnt_lsb_minus4 := log2poc
    sps_sub_layer_ordering_info_present_flag := slo
    sps_max_dec_pic_buffering_minus1 := dpb
    sps_max_num_reorder_pics := reorder
    sps_max_latency_increase_plus1 := latency
    log2_min_luma_coding_block_size_minus3 := minCb
    log2_diff_max_min_luma_coding_block_size := diffCb
    log2_min_luma_transform_block_size_minus2 := minTb
    log2_diff_max_min_luma_transform_block_size := diffTb
    max_transform_hierarchy_depth_inter := hierInter
    max_transform_hierarchy_depth_intra := hierIntra
    scaling_list_enabled_flag := sl.1
    sps_scaling_list_data_present_flag := sl.2
    amp_enabled_flag := amp
    sample_adaptive_offset_enabled_flag := sao
    pcm_enabled_flag := pcm.1
    pcm_sample_bit_depth_luma_minus1 := pcm.2.map (fun x => x.1)
    pcm_sample_bit_depth_chroma_minus1 := pcm.2.map (fun x => x.2.1)
    log2_min_pcm_luma_coding_block_size_minus3 := pcm.2.map (fun x => x.2.2.1)
    log2_diff_max_min_pcm_luma_coding_block_size := pcm.2.map (fun x => x.2.2.2.1)
    pcm_loop_filter_disabled_flag := pcm.2.map (fun x => x.2.2.2.2)
    num_short_term_ref_pic_sets := numSt
    st_ref_pic_set := sets
    long_term_ref_pics_present_flag := ltFlag
    num_long_term_ref_pics_sps := ltCnt
    lt_ref_pic_poc_lsb_sps := pocs
    used_by_curr_pic_lt_sps_flag := useds
    sps_temporal_mvp_enabled_flag := mvp
    strong_intra_smoothing_enabled_flag := smooth
    vui_parameters_present_flag := vflag
    vui_parameters := vui
    sps_extension_present_flag := extFlag
    sps_range_extension_flag := re?
    sps_multilayer_extension_flag := me?
    sps_3d_extension_flag := de?
    sps_scc_extension_flag := se?
    sps_extension_4bits := e4?
    sps_extension_data_flag := df }

/-- Lines 31-36: the byte-level entry point, unescaping exactly once and then
parsing the resulting bit stream from a fresh reader. -/
def ParseSpsBytes (ptlDec : Bool → Nat → BitReader → Option ProfileTierLevel × BitReader)
    (vuiDec : BitReader → Option VuiParameters × BitReader)
    (stRpsDec : Nat → Nat → BitReader → Option StRefPicSet × BitReader)
    (data : List Nat) : Option SpsState × BitReader :=
  ParseSps ptlDec vuiDec stRpsDec ⟨(UnescapeRbsp data).flatMap (natToBits 8), []⟩

/-! ## Derived geometry (lines 670-700) -/

/-- Lines 670-700, translated with C++ semantics: all quantities are uint32,
so `pic_width_in_luma_samples / CtbSizeY` is a truncating integer division and
the `std::ceil` applied to its (already integral) value is the identity and is
therefore omitted here; the `1 << CtbLog2SizeY` shift is reduced modulo
`2 ^ 32` (for `CtbLog2SizeY ≥ 32` the C++ shift is undefined). -/
def getPicSizeInCtbsY (sps : SpsState) : Nat :=
  let MinCbLog2SizeY := (sps.log2_min_luma_coding_block_size_minus3 + 3) % 2 ^ 32
  let CtbLog2SizeY := (MinCbLog2SizeY + sps.log2_diff_max_min_luma_coding_block_size) % 2 ^ 32
  let CtbSizeY := 2 ^ CtbLog2SizeY % 2 ^ 32
  let PicWidthInCtbsY := sps.pic_width_in_luma_samples / CtbSizeY
  let PicHeightInCtbsY := sps.pic_height_in_luma_samples / CtbSizeY
  PicWidthInCtbsY * PicHeightInCtbsY % 2 ^ 32

/-- Modelled from the spec (section 4.4): the same derivation with real
(non-truncating) ceiling division, as equations 7-15 and 7-17 of the H.265
standard require. -/
def getPicSizeInCtbsYCeil (sps : SpsState) : Nat :=
  let MinCbLog2SizeY := sps.log2_min_luma_coding_block_size_minus3 + 3
  let CtbLog2SizeY := MinCbLog2SizeY + sps.log2_diff_max_min_luma_coding_block_size
  let CtbSizeY := 2 ^ CtbLog2SizeY
  ((sps.pic_width_in_luma_samples + CtbSizeY - 1) / CtbSizeY) *
    ((sps.pic_height_in_luma_samples + CtbSizeY - 1) / CtbSizeY)

/-! ## Concrete fixtures: trivial external sub-decoders and bit streams -/

/-- An external profile/tier/level decoder that succeeds without consuming
bits (its internals are outside the core). -/
def ptlTrivial : Bool → Nat → BitReader → Option ProfileTierLevel × BitReader :=
  fun _ _ r => (some {}, r)

/-- An external profile/tier/level decoder that reports failure (returns no
sub-structure) without consuming bits. -/
def ptlFail : Bool → Nat → BitReader → Option ProfileTierLevel × BitReader :=
  fun _ _ r => (none, r)

/-- An external VUI decoder that succeeds without consuming bits. -/
def vuiTrivial : BitReader → Option VuiParameters × BitReader := fun r => (some {}, r)

/-- An external short-term reference-picture-set decoder that succeeds without
consuming bits. -/
def stRpsTrivial : Nat → Nat → BitReader → Option StRefPicSet × BitReader :=
  fun _ _ r => (some {}, r)

/-- A minimal well-formed SPS bit stream: every Exponential-Golomb field is 0
(a single one bit), every flag is 0, `sps_max_sub_layers_minus1` is 0. -/
def spsGoodBits : List Bool :=
  [false, false, false, false,  false, false, false,  false,
   true,  true,  true,  true,  false,  true, true, true,  false,
   true, true, true,  true, true, true, true, true, true,
   false, false, false, false,  true,  false,  false, false, false,  false]

/-- The entity decoded from `spsGoodBits` when the profile/tier/level decoder
fails: all defaults except the single sub-layer ordering triple. -/
def spsGoodNoPtl : SpsState :=
  { sps_max_dec_pic_buffering_minus1 := [0], sps_max_num_reorder_pics := [0],
    sps_max_latency_increase_plus1 := [0] }

/-- Like `spsGoodBits` but with `log2_max_pic_order_cnt_lsb_minus4 = 29`
(Exponential-Golomb bits 000011110), `long_term_ref_pics_present_flag = 1` and
`num_long_term_ref_pics_sps = 1` (bits 010): the long-term loop then issues a
33-bit fixed-width read. -/
def spsC3Bits : List Bool :=
  [false, false, false, false,  false, false, false,  false,
   true,  true,  true,  true,  false,  true, true,
   false, false, false, false, true, true, true, true, false,
   false,  true, true, true,  true, true, true, true, true, true,
   false, false, false, false,  true,  true,  false, true, false]

/-! ## Helper lemmas for reasoning about parse steps -/

theorem bind_eq_pbind {α β : Type} (x : SpsParser α) (f : α → SpsParser β) :
    x >>= f = pbind x f := rfl

theorem pure_apply {α : Type} (a : α) (r : BitReader) :
    (pure a : SpsParser α) r = (some a, r) := rfl

theorem pbind_some {α β : Type} (x : SpsParser α) (f : α → SpsParser β) (r r1 : BitReader)
    (a : α) (hx : x r = (some a, r1)) : pbind x f r = f a r1 := by
  simp [pbind, hx]

theorem pbind_none {α β : Type} (x : SpsParser α) (f : α → SpsParser β) (r r1 : BitReader)
    (hx : x r = (none, r1)) : pbind x f r = (none, r1) := by
  simp [pbind, hx]

theorem pbind_eq_some {α β : Type} (x : SpsParser α) (f : α → SpsParser β) (r r2 : BitReader)
    (b : β) (h : pbind x f r = (some b, r2)) :
    ∃ a r1, x r = (some a, r1) ∧ f a r1 = (some b, r2) := by
  rcases hx : x r with ⟨a?, r1⟩
  cases a? with
  | none => rw [pbind_none x f r r1 hx] at h; cases h
  | some a => exact ⟨a, r1, rfl, by rwa [pbind_some x f r r1 a hx] at h⟩

theorem ReadExponentialGolomb_apply (r : BitReader) (v : Nat) (rest : List Bool)
    (h : expGolombDecode r.bits = some (v, rest)) :
    ReadExponentialGolomb r = (some v, ⟨rest, r.trace⟩) := by
  simp [ReadExponentialGolomb, h]


/-- An external VUI decoder that reports failure (returns no sub-structure)
without consuming bits. -/
def vuiFail : BitReader → Option VuiParameters × BitReader := fun r => (none, r)

/-- Like `spsGoodBits` but with `vui_parameters_present_flag = 1` (bit 34), so
that the VUI sub-decoder is invoked. -/
def spsVuiBits : List Bool :=
  [false, false, false, false,  false, false, false,  false,
   true,  true,  true,  true,  false,  true, true, true,  false,
   true, true, true,  true, true, true, true, true, true,
   false, false, false, false,  true,  false,  false, false, true,  false]

/-- The SPS of the geometry example of the spec:
`log2_min_luma_coding_block_size_minus3 = 0`,
`log2_diff_max_min_luma_coding_block_size = 3`, 1920 x 1080 luma samples. -/
def spsGeom1080p : SpsState :=
  { log2_min_luma_coding_block_size_minus3 := 0, log2_diff_max_min_luma_coding_block_size := 3,
    pic_width_in_luma_samples := 1920, pic_height_in_luma_samples := 1080 }

/-! ## Helper lemmas for reasoning about parse steps -/

theorem pbind_fst_none {α β : Type} (x : SpsParser α) (f : α → SpsParser β) (r : BitReader)
    (hf : ∀ a r1, (f a r1).1 = none) : (pbind x f r).1 = none := by
  rcases hx : x r with ⟨a?, r1⟩
  cases a? with
  | none => rw [pbind_none _ _ _ _ hx]
  | some a => rw [pbind_some _ _ _ _ _ hx]; exact hf a r1

theorem parseSubLayerOrderingLoop_lengths (n : Nat) :
    ∀ (r r1 : BitReader) (out : List Nat × List Nat × List Nat),
      parseSubLayerOrderingLoop n r = (some out, r1) →
      out.1.length = n ∧ out.2.1.length = n ∧ out.2.2.length = n := by
  induction n with
  | zero =>
    intro r r1 out h
    rw [parseSubLayerOrderingLoop, pure_apply] at h
    simp only [Prod.mk.injEq, Option.some.injEq] at h
    obtain ⟨rfl, rfl⟩ := h
    exact ⟨rfl, rfl, rfl⟩
  | succ m ih =>
    intro r r1 out h
    rw [parseSubLayerOrderingLoop] at h
    simp only [bind_eq_pbind] at h
    obtain ⟨a, ra, hxa, h⟩ := pbind_eq_some _ _ _ _ _ h
    obtain ⟨b, rb, hxb, h⟩ := pbind_eq_some _ _ _ _ _ h
    obtain ⟨c, rc, hxc, h⟩ := pbind_eq_some _ _ _ _ _ h
    obtain ⟨abc, rd, hrec, h⟩ := pbind_eq_some _ _ _ _ _ h
    obtain ⟨as, bs, cs⟩ := abc
    rw [pure_apply] at h
    simp only [Prod.mk.injEq, Option.some.injEq] at h
    obtain ⟨rfl, rfl⟩ := h
    obtain ⟨h1, h2, h3⟩ := ih _ _ _ hrec
    simp only [List.length_cons]
    exact ⟨by rw [h1], by rw [h2], by rw [h3]⟩

/-! ## The claims -/

/-- C1: `getPicSizeInCtbsY` is meant to compute
`ceil(1920 / 64) * ceil(1080 / 64) = 30 * 17 = 510` for the spec example, per
equations 7-15 and 7-17 of the H.265 standard cited in its own comments; the
code instead divides two uint32 values, truncating to `30 * 16 = 480`, and the
`std::ceil` around the already-truncated quotient has no effect: the code
contradicts the claim (and its own cited equations) at this input. -/
theorem getPicSizeInCtbsY_1080p_truncates :
    getPicSizeInCtbsY spsGeom1080p = 480 ∧ getPicSizeInCtbsYCeil spsGeom1080p = 510 ∧
    getPicSizeInCtbsY spsGeom1080p ≠ 510 := by decide

/-- C2, counterexample: with a profile/tier/level sub-decoder that fails (and
consumes no bits), `ParseSps` on a well-formed buffer still returns an entity,
whose `profile_tier_level` field records the failure as absent: a failed
sub-decode does not make the whole decode fail. -/
theorem sps_entity_despite_ptl_failure :
    (ParseSps ptlFail vuiTrivial stRpsTrivial ⟨spsGoodBits, []⟩).1 = some spsGoodNoPtl ∧
    spsGoodNoPtl.profile_tier_level = none := by decide

/-- C2, amended: a failed primitive bit-buffer read aborts the whole decode
with no entity — on every strict prefix of the 36-bit well-formed fixture, the
read that runs out of data makes `ParseSps` return none, which exercises a
mid-parse read failure at every field of the grammar — yet failures of the two
unchecked sub-decoders do not abort the decode: with a failing
profile/tier/level decoder (stored without a null check at line 64) the entity
is returned with `profile_tier_level` absent, and with a failing VUI decoder
(stored without a null check at line 323, on a fixture whose
`vui_parameters_present_flag` is 1) the entity is returned with
`vui_parameters` absent. -/
theorem sps_read_failure_aborts_but_subdecode_failure_does_not :
    (∀ n : Nat, n < 36 →
      (ParseSps ptlTrivial vuiTrivial stRpsTrivial ⟨spsGoodBits.take n, []⟩).1 = none) ∧
    (ParseSps ptlFail vuiTrivial stRpsTrivial ⟨spsGoodBits, []⟩).1 = some spsGoodNoPtl ∧
    (ParseSps ptlTrivial vuiFail stRpsTrivial ⟨spsVuiBits, []⟩).1.map
      (fun s => (s.vui_parameters_present_flag, s.vui_parameters)) = some (1, none) :=
  ⟨by decide, by decide, by decide⟩

/-- C2, amended, witness: truncating the fixture to 20 bits makes the decode
fail with no entity. -/
theorem sps_read_failure_aborts_but_subdecode_failure_does_not_witness :
    (ParseSps ptlTrivial vuiTrivial stRpsTrivial ⟨spsGoodBits.take 20, []⟩).1 = none :=
  sps_read_failure_aborts_but_subdecode_failure_does_not.1 20 (by decide)

/-- C3, counterexample: it is not true that every fixed-width read request
issued by `ParseSps` is at most 32 bits: on `spsC3Bits` (which reaches the
long-term reference picture loop with `log2_max_pic_order_cnt_lsb_minus4 = 29`
produced by the earlier Exponential-Golomb read) the ghost trace contains a
33-bit request. -/
theorem lt_poc_width_claim_false :
    ¬ (∀ (bits : List Bool) (w : Nat),
        w ∈ (ParseSps ptlTrivial vuiTrivial stRpsTrivial ⟨bits, []⟩).2.trace → w ≤ 32) := by
  intro hall
  exact absurd (hall spsC3Bits 33 (by decide)) (by decide)

/-- C3, amended: the per-entry POC-LSB read width is
`log2_max_pic_order_cnt_lsb_minus4 + 4`; whenever that field exceeds 28 (a
value the earlier Exponential-Golomb read can produce, see the counterexample)
and at least one entry is to be decoded, the loop issues a single fixed-width
request wider than 32 bits, which fails, aborting the parse with no bits
consumed. -/
theorem lt_poc_read_width (log2maxpoc n : Nat) (r : BitReader)
    (h1 : 0 < n) (h2 : 28 < log2maxpoc) :
    parseLtRefPicsLoop log2maxpoc n r = (none, ⟨r.bits, r.trace ++ [log2maxpoc + 4]⟩) := by
  obtain ⟨m, rfl⟩ : ∃ m, n = m + 1 := ⟨n - 1, by omega⟩
  have hcond : ¬ (log2maxpoc + 4 ≤ 32 ∧ log2maxpoc + 4 ≤ r.bits.length) := by omega
  have hx : ReadBits (log2maxpoc + 4) r = (none, ⟨r.bits, r.trace ++ [log2maxpoc + 4]⟩) := by
    rw [ReadBits, if_neg hcond]
  rw [parseLtRefPicsLoop]
  simp only [bind_eq_pbind]
  exact pbind_none _ _ _ _ hx

/-- C3, witness: with `log2_max_pic_order_cnt_lsb_minus4 = 29` and one entry,
the loop fails having requested exactly one 33-bit read. -/
theorem lt_poc_read_width_witness :
    parseLtRefPicsLoop 29 1 ⟨[], []⟩ = (none, ⟨[], [33]⟩) :=
  lt_poc_read_width 29 1 ⟨[], []⟩ (by decide) (by decide)

/-- C4: when `num_short_term_ref_pic_sets` decodes to a value above
`NUM_SHORT_TERM_REF_PIC_SETS_MAX`, the whole remainder of the parse from that
field on returns no entity, with the reader positioned exactly after the count
(no further bits consumed) and the ghost trace unchanged (no fixed-width read
issued): the parse fails before any short-term set is decoded, for every
sub-decoder and every continuation of the stream. -/
theorem num_st_rps_over_max_aborts
    (stRpsDec : Nat → Nat → BitReader → Option StRefPicSet × BitReader)
    (vuiDec : BitReader → Option VuiParameters × BitReader) (log2maxpoc v : Nat)
    (bits rest : List Bool) (tr : List Nat)
    (hdec : expGolombDecode bits = some (v, rest))
    (hv : NUM_SHORT_TERM_REF_PIC_SETS_MAX < v) :
    ParseSpsFromNumStRps stRpsDec vuiDec log2maxpoc ⟨bits, tr⟩ = (none, ⟨rest, tr⟩) := by
  have hg : ReadExponentialGolomb ⟨bits, tr⟩ = (some v, ⟨rest, tr⟩) :=
    ReadExponentialGolomb_apply _ _ _ hdec
  rw [ParseSpsFromNumStRps]
  simp only [bind_eq_pbind]
  rw [pbind_some _ _ _ _ _ hg]
  simp only [if_pos hv]
  rfl

/-- C4, witness: the count 65 (Exponential-Golomb bits 0000001000010)
exceeds the maximum 64 and aborts the tail of the parse on the spot. -/
theorem num_st_rps_over_max_aborts_witness :
    ParseSpsFromNumStRps stRpsTrivial vuiTrivial 0
      ⟨[false, false, false, false, false, false, true, false, false, false, false, true, false],
        []⟩ = (none, ⟨[], []⟩) :=
  num_st_rps_over_max_aborts stRpsTrivial vuiTrivial 0 65 _ [] [] (by decide) (by decide)

/-- C5: when `scaling_list_enabled_flag` and
`sps_scaling_list_data_present_flag` both decode to 1 (bits `1 1`), the parse
from the scaling-list stage on fails on the spot, for every remaining buffer
content, every sub-decoder and every earlier field value. -/
theorem scaling_list_data_present_aborts
    (stRpsDec : Nat → Nat → BitReader → Option StRefPicSet × BitReader)
    (vuiDec : BitReader → Option VuiParameters × BitReader) (log2maxpoc : Nat)
    (rest : List Bool) :
    ParseSpsFromScalingList stRpsDec vuiDec log2maxpoc ⟨true :: true :: rest, []⟩ =
      (none, ⟨rest, [1, 1]⟩) := by
  simp [ParseSpsFromScalingList, parseScalingList, bind_eq_pbind, pbind, ReadBits,
    pure_apply, pfail, bitsToNat]

/-- C6: when `sps_extension_present_flag` decodes to 1 and any of the four
sub-extension flags decodes to 1, the extension stage of the parse (and with
it `ParseSps`) returns no entity, whatever the rest of the buffer holds. -/
theorem sps_extension_subflag_fails (b1 b2 b3 b4 : Bool) (rest : List Bool)
    (h : (b1 || b2 || b3 || b4) = true) :
    (ParseSpsFromExtension ⟨true :: b1 :: b2 :: b3 :: b4 :: rest, []⟩).1 = none := by
  cases b1 <;> cases b2 <;> cases b3 <;> cases b4 <;>
    first
    | exact absurd h (by decide)
    | (simp [ParseSpsFromExtension, spsExtensionChecks, bind_eq_pbind, pbind, ReadBits,
        pure_apply, pfail, bitsToNat]
       split <;> rfl)

/-- C6, witness: `sps_range_extension_flag = 1` alone forces the failure. -/
theorem sps_extension_subflag_fails_witness :
    (ParseSpsFromExtension ⟨[true, true, false, false, false], []⟩).1 = none :=
  sps_extension_subflag_fails true false false false [] (by decide)

/-- C7: the sub-layer ordering loop decodes exactly
`sps_max_sub_layers_minus1 + 1` triples when
`sps_sub_layer_ordering_info_present_flag` is set (loop index from 0) and
exactly one triple when it is clear (loop index from
`sps_max_sub_layers_minus1`), the loop bound being inclusive; the three
decoded arrays have exactly that length whenever the loop succeeds. -/
theorem sub_layer_ordering_triple_count (flag maxm1 : Nat) (r r1 : BitReader)
    (out : List Nat × List Nat × List Nat)
    (h : parseSubLayerOrdering flag maxm1 r = (some out, r1)) :
    out.1.length = (if flag ≠ 0 then maxm1 + 1 else 1) ∧
    out.2.1.length = (if flag ≠ 0 then maxm1 + 1 else 1) ∧
    out.2.2.length = (if flag ≠ 0 then maxm1 + 1 else 1) := by
  rw [parseSubLayerOrdering] at h
  have hcount : maxm1 + 1 - (if flag ≠ 0 then 0 else maxm1) =
      (if flag ≠ 0 then maxm1 + 1 else 1) := by
    by_cases hf : flag ≠ 0 <;> simp [hf]
  rw [hcount] at h
  exact parseSubLayerOrderingLoop_lengths _ _ _ _ h

/-- C7, witness: with the presence flag set and `sps_max_sub_layers_minus1 = 0`
the loop decodes one triple from three Exponential-Golomb zero codes. -/
theorem sub_layer_ordering_triple_count_witness :
    ([0] : List Nat).length = (if (1 : Nat) ≠ 0 then 0 + 1 else 1) ∧
    ([0] : List Nat).length = (if (1 : Nat) ≠ 0 then 0 + 1 else 1) ∧
    ([0] : List Nat).length = (if (1 : Nat) ≠ 0 then 0 + 1 else 1) :=
  sub_layer_ordering_triple_count 1 0 ⟨[true, true, true], []⟩ ⟨[], []⟩ ([0], [0], [0])
    (by decide)

/-- C8: when `conformance_window_flag` decodes to 0, the conformance window
stage consumes exactly the one flag bit (zero additional bits for the offsets)
and yields the four offsets as absent; and the full parse of the well-formed
fixture returns an entity in which all four offsets are absent, not zero. -/
theorem conformance_window_absent_when_flag_clear :
    (∀ rest : List Bool, parseConformanceWindow ⟨false :: rest, []⟩ =
      (some (0, none, none, none, none), ⟨rest, [1]⟩)) ∧
    (ParseSps ptlTrivial vuiTrivial stRpsTrivial ⟨spsGoodBits, []⟩).1.map
      (fun s => (s.conf_win_left_offset, s.conf_win_right_offset,
        s.conf_win_top_offset, s.conf_win_bottom_offset)) = some (none, none, none, none) := by
  refine ⟨fun rest => ?_, by decide⟩
  simp [parseConformanceWindow, bind_eq_pbind, pbind, ReadBits, pure_apply, bitsToNat]

/-- C9: decoding the standard Exponential-Golomb encoding of any `v` below
`2 ^ 20` yields exactly `v` and consumes exactly the encoding (the decoder
returns `2 ^ k - 1 + suffix` by definition of `expGolombDecode`); and the
encodings of 0, 1 and 2 are the bit patterns 1, 010 and 011. -/
theorem exp_golomb_round_trip :
    (∀ (v : Nat) (rest : List Bool), v < 2 ^ 20 →
      expGolombDecode (encodeExpGolomb v ++ rest) = some (v, rest)) ∧
    encodeExpGolomb 0 = [true] ∧
    encodeExpGolomb 1 = [false, true, false] ∧
    encodeExpGolomb 2 = [false, true, true] := by
  refine ⟨fun v rest _ => expGolombDecode_encode v rest, ?_, ?_, ?_⟩
  · have h : Nat.log 2 (0 + 1) = 0 := Nat.log_one_right 2
    simp [encodeExpGolomb, h, natToBits]
  · have h : Nat.log 2 (1 + 1) = 1 := Nat.log_eq_of_pow_le_of_lt_pow (by norm_num) (by norm_num)
    simp [encodeExpGolomb, h, natToBits]
  · have h : Nat.log 2 (2 + 1) = 1 := Nat.log_eq_of_pow_le_of_lt_pow (by norm_num) (by norm_num)
    simp [encodeExpGolomb, h, natToBits]

/-- C9, witness: the value 7 round-trips through encode and decode. -/
theorem exp_golomb_round_trip_witness :
    expGolombDecode (encodeExpGolomb 7 ++ [true]) = some (7, [true]) :=
  exp_golomb_round_trip.1 7 [true] (by norm_num)

/-- C10: the RBSP unescape is the identity on input without the `00 00 03`
pattern (idempotence on already-unescaped data), maps `00 00 03 00` to
`00 00 00`, and removes exactly one byte from `00 00 00 03 00`, giving
`00 00 00 00`. -/
theorem unescape_rbsp_spec :
    (∀ l : List Nat, hasEmulationPattern l = false → UnescapeRbsp l = l) ∧
    UnescapeRbsp [0, 0, 3, 0] = [0, 0, 0] ∧
    UnescapeRbsp [0, 0, 0, 3, 0] = [0, 0, 0, 0] := by
  refine ⟨fun l hl => ?_, by decide, by decide⟩
  exact unescapeGo_eq_self l 0 (by simpa using hl)

/-- C10, witness: a pattern-free byte list is returned verbatim. -/
theorem unescape_rbsp_spec_witness :
    UnescapeRbsp [1, 2, 3, 0, 3] = [1, 2, 3, 0, 3] :=
  unescape_rbsp_spec.1 [1, 2, 3, 0, 3] (by decide)
